import Mathlib

/-!
# Real-time chat app — verification of the socket layer and the call controller

Shallow embedding of the server socket handlers (`src/unnamed/part_009`,
`src/server/socket.ts`), the conversation decision endpoint
(`src/server/routes.ts`) and the client call-session controller
(`src/client/src/hooks/use-webrtc.ts`), together with proofs of the
specification's claims about them.

The database (drizzle over postgres) is modelled as in-memory lists of rows;
each drizzle query is translated to the corresponding list operation.
Socket.IO emits are modelled as a list of `Emit` effects: to one connection
(`socket.emit`), to a channel (`io.to(room).emit`), or broadcast (`io.emit`).
-/

namespace Chat

/-- Trust state of one (conversation, participant) membership row
(`conversationParticipants.state` in `src/shared/schema.ts`). -/
inductive TrustState
  | accepted
  | pending
  | blocked
deriving DecidableEq

/-- One row of the `conversationParticipants` table. -/
structure Participant where
  conversationId : Nat
  userId : Nat
  state : TrustState
deriving DecidableEq

/-- One row of the `messages` table (fields relevant to gating/relay).
`createdAt` is a numeric timestamp. -/
structure Message where
  id : Nat
  conversationId : Nat
  senderId : Nat
  content : String
  delivered : Bool
  read : Bool
  createdAt : Nat
deriving DecidableEq

/-- The storage collaborator: the two tables the socket layer touches, plus
the id sequence for `messages.id` and the current clock for `createdAt`. -/
structure Storage where
  participants : List Participant
  messages : List Message
  nextMessageId : Nat
  now : Nat
deriving DecidableEq

/-- Socket.IO channels used by the handlers: `user:${id}` and
`conversation:${id}`. -/
inductive Channel
  | user (id : Nat)
  | conversation (id : Nat)
deriving DecidableEq

/-- Events emitted by the server handlers (the "out" rows of the event
surface table). -/
inductive ServerEvent
  | error (message : String)
  | userOnline (userId : Nat)
  | userOffline (userId : Nat)
  | onlineUsers (users : List Nat)
  | newMessage (m : Message)
  | conversationActivity (conversationId : Nat) (messageId : Nat)
  | messageRead (messageId : Nat)
deriving DecidableEq

/-- Where an emit goes: one socket, one channel, or everyone (`io.emit`). -/
inductive Target
  | connection (socketId : Nat)
  | channel (c : Channel)
  | broadcast
deriving DecidableEq

/-- One emitted effect. -/
structure Emit where
  target : Target
  event : ServerEvent
deriving DecidableEq

/-- A connected socket: `SocketWithUser` — the transport's socket id, the
optional bound identity, and the set of joined rooms. -/
structure Conn where
  socketId : Nat
  userId : Option Nat
  joined : List Channel
deriving DecidableEq

/-- Error message strings used by the handlers (verbatim from the source). -/
def notAuthMsg : String := "Not authenticated"

def accessDeniedMsg : String := "Access denied"

def blockedMsg : String := "The recipient has blocked this conversation"

def awaitingMsg : String := "Please wait until the recipient accepts your request"

/-! ## Storage collaborator operations (drizzle queries, translated) -/

/-- `SELECT * FROM conversationParticipants WHERE conversationId = cid AND
userId = uid`, destructured to its first row (`const [participant] = ...`). -/
def getParticipant (st : Storage) (cid uid : Nat) : Option Participant :=
  st.participants.find? (fun p => p.conversationId == cid && p.userId == uid)

/-- `SELECT userId, state FROM conversationParticipants WHERE
conversationId = cid AND userId <> uid` (the `ne` filter of the trust gate). -/
def getOthers (st : Storage) (cid uid : Nat) : List Participant :=
  st.participants.filter (fun p => p.conversationId == cid && p.userId != uid)

/-- `SELECT count(id) FROM messages WHERE conversationId = cid AND
senderId = uid`. -/
def countBySender (st : Storage) (cid uid : Nat) : Nat :=
  (st.messages.filter (fun m => m.conversationId == cid && m.senderId == uid)).length

/-- `INSERT INTO messages (conversationId, senderId, content, delivered)
VALUES (...) RETURNING *`; `read` takes its schema default `false`,
`delivered` is set `true` by the handler, `createdAt` defaults to now. -/
def insertMessage (st : Storage) (cid uid : Nat) (content : String) :
    Message × Storage :=
  let m : Message :=
    { id := st.nextMessageId, conversationId := cid, senderId := uid,
      content := content, delivered := true, read := false, createdAt := st.now }
  (m, { st with messages := st.messages ++ [m],
                nextMessageId := st.nextMessageId + 1 })

/-- `SELECT userId FROM conversationParticipants WHERE conversationId = cid`
(the fan-out query for `conversation_activity`). -/
def getParticipantIds (st : Storage) (cid : Nat) : List Nat :=
  (st.participants.filter (fun p => p.conversationId == cid)).map (·.userId)

/-- `UPDATE messages SET read = true WHERE id = mid RETURNING *`,
destructured to its first returned row. -/
def updateMessageRead (st : Storage) (mid : Nat) : Option Message × Storage :=
  let updated := st.messages.map
    (fun m => if m.id == mid then { m with read := true } else m)
  (updated.find? (fun m => m.id == mid), { st with messages := updated })

/-! ## Socket event handlers (`setupSocket` in `src/unnamed/part_009`) -/

/-- Insertion into the module-level `onlineUsers : Set<number>`: a no-op when
the identity is already present. -/
def setInsert (s : List Nat) (x : Nat) : List Nat :=
  if x ∈ s then s else s ++ [x]

/-- The `authenticate` handler (and, identically, the auto-authentication on
connection): bind the identity, join the personal room, add to the online
set, broadcast `user_online` to everyone, send the full `online_users` set to
the caller. Returns (online set, updated socket, emits). -/
def handleAuthenticate (online : List Nat) (sock : Conn) (uid : Nat) :
    List Nat × Conn × List Emit :=
  let sock' := { sock with userId := some uid, joined := Channel.user uid :: sock.joined }
  let online' := setInsert online uid
  (online', sock',
   [⟨Target.broadcast, ServerEvent.userOnline uid⟩,
    ⟨Target.connection sock.socketId, ServerEvent.onlineUsers online'⟩])

/-- The `disconnect` handler. The transport (socket.io) drops the closed
connection from its registry; the handler itself deletes the identity from
the online set and broadcasts `user_offline` — with no reference counting
over the remaining connections of the same identity. -/
def handleDisconnect (online : List Nat) (sockets : List Conn) (sock : Conn) :
    List Nat × List Conn × List Emit :=
  let sockets' := sockets.filter (fun c => c.socketId != sock.socketId)
  match sock.userId with
  | some uid =>
      (online.filter (fun x => x != uid), sockets',
       [⟨Target.broadcast, ServerEvent.userOffline uid⟩])
  | none => (online, sockets', [])

/-- The `join_conversation` handler: require an identity, require a
membership row; on failure emit `Access denied` to the caller only and do not
join the room; on success join `conversation:${id}`. -/
def handleJoinConversation (st : Storage) (sock : Conn) (cid : Nat) :
    Conn × List Emit :=
  match sock.userId with
  | none => (sock, [⟨Target.connection sock.socketId, ServerEvent.error notAuthMsg⟩])
  | some uid =>
      match getParticipant st cid uid with
      | none =>
          (sock, [⟨Target.connection sock.socketId, ServerEvent.error accessDeniedMsg⟩])
      | some _ =>
          ({ sock with joined := Channel.conversation cid :: sock.joined }, [])

/-- The `send_message` handler: authentication check, membership check,
blocked gate, pending gate (allow only the sender's first message), then
persist (`delivered = true`, `read` defaults to `false`), broadcast the full
record to the conversation channel, and push a `conversation_activity` notice
to every participant's personal room. The source nests the count check
inside `if (someonePending)`; rejecting iff `someonePending && count ≥ 1` is
the same decision. -/
def handleSendMessage (st : Storage) (sock : Conn) (cid : Nat) (content : String) :
    Storage × List Emit :=
  match sock.userId with
  | none => (st, [⟨Target.connection sock.socketId, ServerEvent.error notAuthMsg⟩])
  | some uid =>
      match getParticipant st cid uid with
      | none =>
          (st, [⟨Target.connection sock.socketId, ServerEvent.error accessDeniedMsg⟩])
      | some _ =>
          let others := getOthers st cid uid
          if others.any (fun p => p.state == TrustState.blocked) then
            (st, [⟨Target.connection sock.socketId, ServerEvent.error blockedMsg⟩])
          else if others.any (fun p => p.state == TrustState.pending)
                  && decide (1 ≤ countBySender st cid uid) then
            (st, [⟨Target.connection sock.socketId, ServerEvent.error awaitingMsg⟩])
          else
            let (msg, st') := insertMessage st cid uid content
            (st',
             ⟨Target.channel (Channel.conversation cid), ServerEvent.newMessage msg⟩ ::
               (getParticipantIds st' cid).map
                 (fun p => ⟨Target.channel (Channel.user p),
                            ServerEvent.conversationActivity cid msg.id⟩))

/-- The `mark_as_read` handler: authentication check, then the `UPDATE ...
RETURNING`; when a row was updated, notify the *sender's* personal room with
`message_read`; when no row matched, do nothing further (no error event). -/
def handleMarkAsRead (st : Storage) (sock : Conn) (mid : Nat) :
    Storage × List Emit :=
  match sock.userId with
  | none => (st, [⟨Target.connection sock.socketId, ServerEvent.error notAuthMsg⟩])
  | some _ =>
      let (upd, st') := updateMessageRead st mid
      match upd with
      | some m =>
          (st', [⟨Target.channel (Channel.user m.senderId), ServerEvent.messageRead m.id⟩])
      | none => (st', [])

/-- Outcome of `POST /api/conversations/:conversationId/decision`
(`src/server/routes.ts`), past the authentication middleware. -/
inductive DecisionOutcome
  | accessDenied
  | ok
deriving DecidableEq

/-- The decision endpoint: verify the deciding user is a participant, then
set *that user's own* membership row to `accepted` or `blocked`. -/
def handleDecision (st : Storage) (uid cid : Nat) (accept : Bool) :
    Storage × DecisionOutcome :=
  match getParticipant st cid uid with
  | none => (st, DecisionOutcome.accessDenied)
  | some _ =>
      let newState := if accept then TrustState.accepted else TrustState.blocked
      let updated := st.participants.map
        (fun p => if p.conversationId == cid && p.userId == uid then
                    { p with state := newState } else p)
      ({ st with participants := updated }, DecisionOutcome.ok)

end Chat

namespace WebRTC

/-! ## Client call-session controller (`src/client/src/hooks/use-webrtc.ts`)

The hook's refs (`pcRef`, `localStreamRef`, `remoteStreamRef`,
`incomingOfferRef`, `peerIdRef`, `mediaRef`) and its `callState` become one
record, `HookState`. Browser/device behaviour (`getUserMedia`,
`getDisplayMedia`, the user agent) is an explicit environment `MediaEnv`.
Side effects (creating/closing a peer connection, stopping a track, socket
emits) are returned as a `ClientAction` trace. Every function here is total:
the source wraps the throwing spots (`removeTrack`, `addIceCandidate`,
acquisition failures) in try/catch or optional chaining, which the embedding
mirrors as ordinary control flow. -/

/-- `CallMedia = { audio, video }`. -/
structure CallMedia where
  audio : Bool
  video : Bool
deriving DecidableEq

/-- `CallState`: the tagged union of session states. -/
inductive CallState
  | idle
  | calling (peerId : Nat) (media : CallMedia)
  | ringing (peerId : Nat) (media : CallMedia)
  | inCall (peerId : Nat) (media : CallMedia)
  | ended (reason : Option String)
deriving DecidableEq

/-- Kind of a media track. -/
inductive TrackKind
  | audio
  | video
deriving DecidableEq

/-- A local or remote media track (id plus kind). -/
structure Track where
  id : Nat
  kind : TrackKind
deriving DecidableEq

/-- The state of one `RTCPeerConnection` as far as the controller drives it. -/
structure PeerConn where
  id : Nat
  remoteDescriptionSet : Bool
  localDescriptionSet : Bool
  addedCandidates : List Nat
  tracks : List Nat
deriving DecidableEq

/-- The hook's refs and React state, collapsed into one record.
`scheduledIdle` models the pending `setTimeout(() => setCallState(idle))`;
`nextPcId`/`nextTrackId` are fresh-name supplies for created objects. -/
structure HookState where
  pc : Option PeerConn
  localStream : Option (List Track)
  remoteStream : Option (List Track)
  callState : CallState
  incomingOffer : Option Nat
  peerId : Option Nat
  media : Option CallMedia
  scheduledIdle : Bool
  nextPcId : Nat
  nextTrackId : Nat
deriving DecidableEq

/-- Observable side effects of the controller. -/
inductive ClientAction
  | createPc (id : Nat)
  | closePc (id : Nat)
  | stopTrack (id : Nat)
  | addIce (pcId : Nat) (candidate : Nat)
  | emitCallUser (toUserId : Nat) (media : CallMedia)
  | emitAnswerCall (toUserId : Nat)
  | emitEndCall (toUserId : Nat)
  | emitRejectCall (toUserId : Nat)
deriving DecidableEq

/-- `getUserMedia` error names the fallback branch distinguishes. -/
inductive ErrName
  | notReadableError
  | trackStartError
  | notAllowedError
  | otherError
deriving DecidableEq

/-- The error names that trigger the audio-only retry
(`NotReadableError || TrackStartError || NotAllowedError`). -/
def isVideoFallbackErr : ErrName → Bool
  | ErrName.notReadableError => true
  | ErrName.trackStartError => true
  | ErrName.notAllowedError => true
  | ErrName.otherError => false

/-- Device/browser environment for one acquisition attempt: whether a
`getUserMedia` request including video (resp. audio) fails and with which
error name; whether the user agent is mobile; whether `getDisplayMedia`
exists, is granted, and yields a video track. -/
structure MediaEnv where
  videoError : Option ErrName
  audioError : Option ErrName
  isMobile : Bool
  hasGetDisplayMedia : Bool
  displayGranted : Bool
  displayHasVideo : Bool
deriving DecidableEq

/-- `navigator.mediaDevices.getUserMedia(constraints)`: fails with the
environment's video error when video is requested and the video device errs,
else with the audio error when audio is requested and the audio device errs,
else yields a stream with the requested track kinds (fresh ids). Returns the
stream and the advanced id supply. -/
def tryAcquire (env : MediaEnv) (tid : Nat) (m : CallMedia) :
    Except ErrName (List Track × Nat) :=
  if m.video && env.videoError.isSome then
    Except.error (env.videoError.getD ErrName.otherError)
  else if m.audio && env.audioError.isSome then
    Except.error (env.audioError.getD ErrName.otherError)
  else
    Except.ok
      ((if m.audio then [⟨tid, TrackKind.audio⟩] else []) ++
         (if m.video then [⟨tid + 1, TrackKind.video⟩] else []),
       tid + 2)

/-- Result of `getMediaWithFallback`: the acquired stream, the media actually
in use, and the advanced track-id supply. -/
structure AcqResult where
  stream : List Track
  mediaUsed : CallMedia
  nextTid : Nat
deriving DecidableEq

/-- `getMediaWithFallback(media)` minus the ref bookkeeping (handled by the
callers): try the exact request; on a video-device failure with one of the
three retryable names, retry audio-only; on desktop, additionally try
`getDisplayMedia` and, when it yields a video track, compose microphone
audio with display video and report `{audio:true, video:true}`; otherwise
stay audio-only. Any other failure is surfaced as the original error. -/
def getMediaWithFallback (env : MediaEnv) (tid : Nat) (media : CallMedia) :
    Except ErrName AcqResult :=
  match tryAcquire env tid media with
  | Except.ok (stream, tid') => Except.ok ⟨stream, media, tid'⟩
  | Except.error err =>
      if media.video && isVideoFallbackErr err then
        let audioOnly : CallMedia := ⟨media.audio, false⟩
        match tryAcquire env tid audioOnly with
        | Except.ok (audioStream, tid') =>
            if !env.isMobile && env.hasGetDisplayMedia then
              if env.displayGranted && env.displayHasVideo then
                Except.ok ⟨audioStream ++ [⟨tid', TrackKind.video⟩],
                           ⟨true, true⟩, tid' + 1⟩
              else Except.ok ⟨audioStream, audioOnly, tid'⟩
            else Except.ok ⟨audioStream, audioOnly, tid'⟩
        | Except.error _ => Except.error err
      else Except.error err

/-- `cleanup()`: detach the observers, remove the senders, close the peer
connection, stop every local and remote track, null every ref. `callState`
is untouched (the callers set it). Total: `removeTrack` is inside
`try {} catch {}` in the source and `close()` on any state does not throw. -/
def cleanup (s : HookState) : HookState × List ClientAction :=
  let closeActs := match s.pc with
    | some pc => [ClientAction.closePc pc.id]
    | none => []
  let localStops := (s.localStream.getD []).map (fun t => ClientAction.stopTrack t.id)
  let remoteStops := (s.remoteStream.getD []).map (fun t => ClientAction.stopTrack t.id)
  ({ s with pc := none, localStream := none, remoteStream := none,
            peerId := none, media := none, incomingOffer := none },
   closeActs ++ localStops ++ remoteStops)

/-- `endCall(toUserId?)`: emit `end_call` when a socket and a target are at
hand, run `cleanup()`, set state `ended`, and schedule the 400 ms transition
back to `idle`. -/
def endCall (s : HookState) (toUserId : Option Nat) : HookState × List ClientAction :=
  let emits := match toUserId with
    | some t => [ClientAction.emitEndCall t]
    | none => []
  let (s', acts) := cleanup s
  ({ s' with callState := CallState.ended none, scheduledIdle := true },
   emits ++ acts)

/-- Firing of the pending `setTimeout(() => setCallState({status:"idle"}))`. -/
def runTimeout (s : HookState) : HookState :=
  if s.scheduledIdle then { s with callState := CallState.idle, scheduledIdle := false }
  else s

/-- The `ice_candidate` socket listener: `if (!pc) return;` — with no peer
connection the candidate is discarded (no buffer exists anywhere in the
hook). With a peer connection, `addIceCandidate` succeeds once the remote
description is set; before that the browser rejects, the rejection is caught
and logged, and the candidate is likewise discarded. -/
def onIceCandidate (s : HookState) (cand : Nat) : HookState × List ClientAction :=
  match s.pc with
  | none => (s, [])
  | some pc =>
      if pc.remoteDescriptionSet then
        ({ s with pc := some { pc with addedCandidates := pc.addedCandidates ++ [cand] } },
         [ClientAction.addIce pc.id cand])
      else (s, [])

/-- `createPeer()`: construct a fresh `RTCPeerConnection` and a fresh remote
`MediaStream` and overwrite both refs. The previous peer connection, if any,
is *not* closed — its ref is simply replaced. -/
def createPeer (s : HookState) : PeerConn × HookState × List ClientAction :=
  let pc : PeerConn :=
    { id := s.nextPcId, remoteDescriptionSet := false, localDescriptionSet := false,
      addedCandidates := [], tracks := [] }
  (pc,
   { s with pc := some pc, remoteStream := some [], nextPcId := s.nextPcId + 1 },
   [ClientAction.createPc s.nextPcId])

/-- `startCall(toUserId, media)` (socket and identity present): set the peer
and media refs, `createPeer()`, acquire media with fallback (which first
stops any previous local tracks), attach the tracks, create and set the
local offer, set state `calling` with the media actually used, and emit
`call_user` carrying that media. On acquisition failure the catch block sets
state `ended("Could not start call")` and schedules idle (no cleanup). -/
def startCall (env : MediaEnv) (s : HookState) (toUserId : Nat) (media : CallMedia) :
    HookState × List ClientAction :=
  let s1 := { s with peerId := some toUserId, media := some media }
  let (pc, s2, created) := createPeer s1
  let oldStops := (s2.localStream.getD []).map (fun t => ClientAction.stopTrack t.id)
  let s3 := { s2 with localStream := none }
  match getMediaWithFallback env s3.nextTrackId media with
  | Except.error _ =>
      ({ s3 with callState := CallState.ended (some "Could not start call"),
                 scheduledIdle := true },
       created ++ oldStops)
  | Except.ok res =>
      let pc' := { pc with tracks := res.stream.map (·.id), localDescriptionSet := true }
      ({ s3 with pc := some pc', localStream := some res.stream,
                 nextTrackId := res.nextTid,
                 callState := CallState.calling toUserId res.mediaUsed },
       created ++ oldStops ++ [ClientAction.emitCallUser toUserId res.mediaUsed])

/-- `acceptCall(fromUserId, offer, media)` (socket and identity present):
same shape as `startCall`, but the stored remote offer is set as the remote
description *before* the answer is created, `answer_call` is emitted, and
the state becomes `in-call` with the media actually used. -/
def acceptCall (env : MediaEnv) (s : HookState) (fromUserId : Nat) (media : CallMedia) :
    HookState × List ClientAction :=
  let s1 := { s with peerId := some fromUserId, media := some media }
  let (pc, s2, created) := createPeer s1
  let oldStops := (s2.localStream.getD []).map (fun t => ClientAction.stopTrack t.id)
  let s3 := { s2 with localStream := none }
  match getMediaWithFallback env s3.nextTrackId media with
  | Except.error _ =>
      ({ s3 with callState := CallState.ended (some "Failed to accept call"),
                 scheduledIdle := true },
       created ++ oldStops)
  | Except.ok res =>
      let pc' := { pc with tracks := res.stream.map (·.id),
                           remoteDescriptionSet := true, localDescriptionSet := true }
      ({ s3 with pc := some pc', localStream := some res.stream,
                 nextTrackId := res.nextTid,
                 callState := CallState.inCall fromUserId res.mediaUsed },
       created ++ oldStops ++ [ClientAction.emitAnswerCall fromUserId])

end WebRTC

/-! ## Helper lemmas -/

open Chat WebRTC

/-- Inserting a message leaves the membership table unchanged, so the
membership lookup is unchanged. -/
lemma getParticipant_insertMessage (st : Storage) (cid uid : Nat) (content : String)
    (cid' uid' : Nat) :
    getParticipant ((insertMessage st cid uid content).2) cid' uid' =
      getParticipant st cid' uid' := rfl

/-- Inserting a message leaves the other-participants query unchanged. -/
lemma getOthers_insertMessage (st : Storage) (cid uid : Nat) (content : String)
    (cid' uid' : Nat) :
    getOthers ((insertMessage st cid uid content).2) cid' uid' =
      getOthers st cid' uid' := rfl

/-- Inserting a message by `uid` in `cid` bumps that sender's count in that
conversation by one. -/
lemma countBySender_insertMessage (st : Storage) (cid uid : Nat) (content : String) :
    countBySender ((insertMessage st cid uid content).2) cid uid =
      countBySender st cid uid + 1 := by
  simp [countBySender, insertMessage, List.filter_append]

/-! ## Concrete fixtures for witnesses and counterexamples -/

/-- A direct conversation 1 where user 1 is accepted and user 2 is pending. -/
def stPend : Storage :=
  { participants := [⟨1, 1, TrustState.accepted⟩, ⟨1, 2, TrustState.pending⟩],
    messages := [], nextMessageId := 0, now := 0 }

/-- A direct conversation 1 with both participants accepted. -/
def stAB : Storage :=
  { participants := [⟨1, 1, TrustState.accepted⟩, ⟨1, 2, TrustState.accepted⟩],
    messages := [], nextMessageId := 0, now := 0 }

/-- A socket bound to user 1. -/
def sockA : Conn := { socketId := 0, userId := some 1, joined := [] }

/-- A socket bound to user 2. -/
def sockB : Conn := { socketId := 1, userId := some 2, joined := [] }

/-- A ringing client session: the offer is stored but no peer connection
exists yet (`acceptCall` has not run). -/
def ringingNoPc : HookState :=
  { pc := none, localStream := none, remoteStream := none,
    callState := CallState.ringing 3 ⟨true, true⟩,
    incomingOffer := some 1, peerId := none, media := none,
    scheduledIdle := false, nextPcId := 0, nextTrackId := 0 }

/-- An in-call client session whose peer connection has its remote
description set. -/
def inCallHook : HookState :=
  { pc := some ⟨0, true, true, [], []⟩, localStream := none, remoteStream := none,
    callState := CallState.inCall 3 ⟨true, false⟩,
    incomingOffer := none, peerId := some 3, media := some ⟨true, false⟩,
    scheduledIdle := false, nextPcId := 1, nextTrackId := 0 }

/-! ## Claims -/

/-- **C9** — `endCall()` is idempotent: for every session state, two
consecutive invocations (each one total — the source guards every throwing
spot with optional chaining or try/catch, so neither call can throw)
followed by the fixed delay leave the session in `idle` with every
peer-connection and media reference cleared. -/
theorem endCall_idempotent (s : HookState) (t1 t2 : Option Nat) :
    ((runTimeout (endCall ((endCall s t1).1) t2).1).callState = CallState.idle) ∧
    ((runTimeout (endCall ((endCall s t1).1) t2).1).pc = none) ∧
    ((runTimeout (endCall ((endCall s t1).1) t2).1).localStream = none) ∧
    ((runTimeout (endCall ((endCall s t1).1) t2).1).remoteStream = none) ∧
    ((runTimeout (endCall ((endCall s t1).1) t2).1).peerId = none) ∧
    ((runTimeout (endCall ((endCall s t1).1) t2).1).media = none) ∧
    ((runTimeout (endCall ((endCall s t1).1) t2).1).incomingOffer = none) := by
  simp [endCall, cleanup, runTimeout]

/-- **C10** — `mark_as_read` from an authenticated connection for a message
id that does not exist in storage is a silent no-op: storage is unchanged,
no `message_read` is emitted, and no error event is sent. -/
theorem mark_as_read_missing_is_noop (st : Storage) (sock : Conn) (mid uid : Nat)
    (hauth : sock.userId = some uid)
    (habsent : ∀ m ∈ st.messages, m.id ≠ mid) :
    handleMarkAsRead st sock mid = (st, []) := by
  have hmap : st.messages.map
      (fun m => if m.id == mid then { m with read := true } else m) = st.messages := by
    conv_rhs => rw [← List.map_id st.messages]
    apply List.map_congr_left
    intro m hm
    simp [habsent m hm]
  have hfind : st.messages.find? (fun m => m.id == mid) = none := by
    rw [List.find?_eq_none]
    intro m hm
    simp [habsent m hm]
  have hupd : updateMessageRead st mid = (none, st) := by
    simp only [updateMessageRead]
    rw [hmap, hfind]
  simp [handleMarkAsRead, hauth, hupd]

/-- **C10 witness** — user 1 marks the nonexistent message 5 as read in a
store holding one message with id 0. -/
theorem mark_as_read_missing_is_noop_witness :
    handleMarkAsRead ((insertMessage stAB 1 1 "x").2) sockA 5 =
      ((insertMessage stAB 1 1 "x").2, []) :=
  mark_as_read_missing_is_noop ((insertMessage stAB 1 1 "x").2) sockA 5 1 rfl
    (by decide)

/-- **C7** — `join_conversation` with no membership row fails with
`Access denied` reported only to the originating connection and does not
subscribe the connection (the socket is returned unchanged); with a
membership row, the connection is subscribed to the conversation channel. -/
theorem join_conversation_gate (st : Storage) (sock : Conn) (cid uid : Nat)
    (hauth : sock.userId = some uid) :
    (getParticipant st cid uid = none →
      handleJoinConversation st sock cid =
        (sock, [⟨Target.connection sock.socketId, ServerEvent.error accessDeniedMsg⟩])) ∧
    (∀ prt, getParticipant st cid uid = some prt →
      handleJoinConversation st sock cid =
        ({ sock with joined := Channel.conversation cid :: sock.joined }, [])) := by
  constructor
  · intro h
    simp [handleJoinConversation, hauth, h]
  · intro prt h
    simp [handleJoinConversation, hauth, h]

/-- **C7 witness** — user 1 is denied joining conversation 2 (no membership
row) and is admitted to conversation 1 (membership row present). -/
theorem join_conversation_gate_witness :
    (handleJoinConversation stAB sockA 2 =
      (sockA, [⟨Target.connection 0, ServerEvent.error accessDeniedMsg⟩])) ∧
    (handleJoinConversation stAB sockA 1 =
      ({ sockA with joined := [Channel.conversation 1] }, [])) :=
  ⟨(join_conversation_gate stAB sockA 2 1 rfl).1 rfl,
   (join_conversation_gate stAB sockA 1 1 rfl).2 ⟨1, 1, TrustState.accepted⟩ rfl⟩

/-- **C4 counterexample** — a remote ICE candidate arriving while the
session is Ringing (no peer connection exists yet) is *not* retained: the
handler returns the state unchanged and performs no action, so the
candidate is nowhere recorded — refuting "the candidate is retained and
eventually added to the peer connection". -/
theorem ice_candidate_dropped_while_ringing :
    onIceCandidate ringingNoPc 42 = (ringingNoPc, []) := rfl

/-- **C4 (amended)** — a remote ICE candidate arriving when no peer
connection exists is discarded (state unchanged, no action); when a peer
connection exists with its remote description set, the candidate is added
to it; when the remote description is not yet set, `addIceCandidate`'s
rejection is caught and the candidate is likewise discarded. -/
theorem ice_candidate_behavior (s : HookState) (cand : Nat) :
    (s.pc = none → onIceCandidate s cand = (s, [])) ∧
    (∀ pc, s.pc = some pc → pc.remoteDescriptionSet = true →
      onIceCandidate s cand =
        ({ s with pc := some { pc with addedCandidates := pc.addedCandidates ++ [cand] } },
         [ClientAction.addIce pc.id cand])) ∧
    (∀ pc, s.pc = some pc → pc.remoteDescriptionSet = false →
      onIceCandidate s cand = (s, [])) := by
  refine ⟨fun h => ?_, fun pc hpc hr => ?_, fun pc hpc hr => ?_⟩ <;>
    simp [onIceCandidate, *]

/-- **C4 witness** — in an in-call session with the remote description set,
candidate 7 is added to the peer connection. -/
theorem ice_candidate_behavior_witness :
    onIceCandidate inCallHook 7 =
      ({ inCallHook with pc := some ⟨0, true, true, [7], []⟩ },
       [ClientAction.addIce 0 7]) :=
  (ice_candidate_behavior inCallHook 7).2.1 ⟨0, true, true, [], []⟩ rfl rfl

/-- **C1** — with some other participant pending (and none blocked), a
sender with zero prior messages in the conversation is allowed exactly one
send: the first send is persisted and fanned out, and a second send before
the pending side decides is rejected with the AwaitingAcceptance error,
addressed to the originating connection only, with storage unchanged and
nothing broadcast. -/
theorem pending_gate_exactly_one_message (st : Storage) (sock : Conn)
    (cid uid : Nat) (c1 c2 : String) (prt : Participant)
    (hauth : sock.userId = some uid)
    (hmem : getParticipant st cid uid = some prt)
    (hpend : (getOthers st cid uid).any (fun p => p.state == TrustState.pending) = true)
    (hnoblk : (getOthers st cid uid).any (fun p => p.state == TrustState.blocked) = false)
    (hcount : countBySender st cid uid = 0) :
    handleSendMessage st sock cid c1 =
      ((insertMessage st cid uid c1).2,
       ⟨Target.channel (Channel.conversation cid),
        ServerEvent.newMessage (insertMessage st cid uid c1).1⟩ ::
         (getParticipantIds st cid).map
           (fun p => ⟨Target.channel (Channel.user p),
                      ServerEvent.conversationActivity cid st.nextMessageId⟩)) ∧
    handleSendMessage ((insertMessage st cid uid c1).2) sock cid c2 =
      ((insertMessage st cid uid c1).2,
       [⟨Target.connection sock.socketId, ServerEvent.error awaitingMsg⟩]) := by
  constructor
  · simp [handleSendMessage, hauth, hmem, hnoblk, hpend, hcount, insertMessage,
          getParticipantIds]
  · have hmem' : getParticipant ((insertMessage st cid uid c1).2) cid uid = some prt := hmem
    have hpend' : (getOthers ((insertMessage st cid uid c1).2) cid uid).any
        (fun p => p.state == TrustState.pending) = true := hpend
    have hnoblk' : (getOthers ((insertMessage st cid uid c1).2) cid uid).any
        (fun p => p.state == TrustState.blocked) = false := hnoblk
    have hcount' : countBySender ((insertMessage st cid uid c1).2) cid uid = 1 := by
      rw [countBySender_insertMessage, hcount]
    simp [handleSendMessage, hauth, hmem', hnoblk', hpend', hcount']

/-- **C1 witness** — user 1 (accepted) in conversation 1 with user 2 still
pending: the first message goes through, the second is rejected with the
AwaitingAcceptance error only. -/
theorem pending_gate_exactly_one_message_witness :
    handleSendMessage ((insertMessage stPend 1 1 "a").2) sockA 1 "b" =
      ((insertMessage stPend 1 1 "a").2,
       [⟨Target.connection 0, ServerEvent.error awaitingMsg⟩]) :=
  (pending_gate_exactly_one_message stPend sockA 1 1 "a" "b"
    ⟨1, 1, TrustState.accepted⟩ rfl rfl rfl rfl rfl).2

/-- **C3** — every permitted send (member sender, nobody blocked, and the
pending gate passing) persists the message with `delivered = true` and
`read = false`, broadcasts the full record to the conversation channel, and
pushes a `{conversationId, messageId}` activity notice to the personal
channel of every participant of the conversation. -/
theorem send_message_persist_and_fanout (st : Storage) (sock : Conn)
    (cid uid : Nat) (content : String) (prt : Participant)
    (hauth : sock.userId = some uid)
    (hmem : getParticipant st cid uid = some prt)
    (hnoblk : (getOthers st cid uid).any (fun p => p.state == TrustState.blocked) = false)
    (hgate : (getOthers st cid uid).any (fun p => p.state == TrustState.pending) = false ∨
             countBySender st cid uid = 0) :
    handleSendMessage st sock cid content =
      ({ st with
           messages := st.messages ++
             [⟨st.nextMessageId, cid, uid, content, true, false, st.now⟩],
           nextMessageId := st.nextMessageId + 1 },
       ⟨Target.channel (Channel.conversation cid),
        ServerEvent.newMessage ⟨st.nextMessageId, cid, uid, content, true, false, st.now⟩⟩ ::
         (getParticipantIds st cid).map
           (fun p => ⟨Target.channel (Channel.user p),
                      ServerEvent.conversationActivity cid st.nextMessageId⟩)) ∧
    ∀ p ∈ getParticipantIds st cid,
      (⟨Target.channel (Channel.user p),
        ServerEvent.conversationActivity cid st.nextMessageId⟩ : Emit) ∈
        (handleSendMessage st sock cid content).2 := by
  have hmain : handleSendMessage st sock cid content =
      ({ st with
           messages := st.messages ++
             [⟨st.nextMessageId, cid, uid, content, true, false, st.now⟩],
           nextMessageId := st.nextMessageId + 1 },
       ⟨Target.channel (Channel.conversation cid),
        ServerEvent.newMessage ⟨st.nextMessageId, cid, uid, content, true, false, st.now⟩⟩ ::
         (getParticipantIds st cid).map
           (fun p => ⟨Target.channel (Channel.user p),
                      ServerEvent.conversationActivity cid st.nextMessageId⟩)) := by
    rcases hgate with hp | hc
    · simp [handleSendMessage, hauth, hmem, hnoblk, hp, insertMessage, getParticipantIds]
    · simp [handleSendMessage, hauth, hmem, hnoblk, hc, insertMessage, getParticipantIds]
  refine ⟨hmain, fun p hp => ?_⟩
  rw [hmain]
  exact List.mem_cons_of_mem _ (List.mem_map_of_mem _ hp)

/-- **C2 counterexample** — in the two-accepted conversation 1, user 2
blocks via the decision endpoint (which sets only user 2's own row to
`blocked`); user 2's own subsequent send is *not* rejected with Blocked: it
is persisted and fanned out, refuting "every subsequent send_message by any
participant is rejected with Blocked". -/
theorem blocker_can_still_send :
    getParticipant (handleDecision stAB 2 1 false).1 1 2 =
      some ⟨1, 2, TrustState.blocked⟩ ∧
    (handleSendMessage (handleDecision stAB 2 1 false).1 sockB 1 "x").1.messages =
      [⟨0, 1, 2, "x", true, false, 0⟩] ∧
    (handleSendMessage (handleDecision stAB 2 1 false).1 sockB 1 "x").2 ≠
      [⟨Target.connection 1, ServerEvent.error blockedMsg⟩] := by
  refine ⟨rfl, rfl, ?_⟩
  decide

/-- **C2 (amended)** — after a participant's block decision (which sets only
the decider's own membership row to `blocked`), every subsequent send by any
*other* participant of the conversation is rejected with Blocked, reported
only to the originating connection with storage unchanged; the blocker's own
sends are not rejected by this gate, because it inspects only the states of
participants other than the sender. -/
theorem block_gates_other_senders (st : Storage) (cid blocker uid : Nat)
    (sock : Conn) (content : String) (pb ps : Participant)
    (hb : getParticipant st cid blocker = some pb)
    (hauth : sock.userId = some uid)
    (hne : uid ≠ blocker)
    (hs : getParticipant ((handleDecision st blocker cid false).1) cid uid = some ps) :
    handleSendMessage ((handleDecision st blocker cid false).1) sock cid content =
      ((handleDecision st blocker cid false).1,
       [⟨Target.connection sock.socketId, ServerEvent.error blockedMsg⟩]) := by
  have hb' : st.participants.find?
      (fun p => p.conversationId == cid && p.userId == blocker) = some pb := hb
  have hpredb := List.find?_some hb'
  have hmemb : pb ∈ st.participants := List.mem_of_find?_eq_some hb'
  simp only [Bool.and_eq_true, beq_iff_eq] at hpredb
  obtain ⟨hcid, hbid⟩ := hpredb
  have hmem' : ({ pb with state := TrustState.blocked } : Participant) ∈
      ((handleDecision st blocker cid false).1).participants := by
    simp only [handleDecision, hb]
    refine List.mem_map.2 ⟨pb, hmemb, ?_⟩
    simp [hcid, hbid]
  have hothers : ({ pb with state := TrustState.blocked } : Participant) ∈
      getOthers ((handleDecision st blocker cid false).1) cid uid := by
    refine List.mem_filter.2 ⟨hmem', ?_⟩
    simp [hcid, hbid, Ne.symm hne]
  have hblocked : (getOthers ((handleDecision st blocker cid false).1) cid uid).any
      (fun p => p.state == TrustState.blocked) = true :=
    List.any_eq_true.2 ⟨_, hothers, by simp⟩
  simp [handleSendMessage, hauth, hs, hblocked]

/-- **C2 witness** — after user 2 blocks conversation 1, user 1's send is
rejected with the Blocked error, to user 1's connection only. -/
theorem block_gates_other_senders_witness :
    handleSendMessage ((handleDecision stAB 2 1 false).1) sockA 1 "y" =
      ((handleDecision stAB 2 1 false).1,
       [⟨Target.connection 0, ServerEvent.error blockedMsg⟩]) :=
  block_gates_other_senders stAB 1 2 1 sockA "y"
    ⟨1, 2, TrustState.accepted⟩ ⟨1, 1, TrustState.accepted⟩ rfl rfl
    (by decide) rfl

/-- **C3 witness** — user 1 sends "hello" in the two-accepted conversation:
the record is persisted delivered/unread, broadcast, and both participants
get an activity notice. -/
theorem send_message_persist_and_fanout_witness :
    handleSendMessage stAB sockA 1 "hello" =
      ({ stAB with
           messages := [⟨0, 1, 1, "hello", true, false, 0⟩],
           nextMessageId := 1 },
       [⟨Target.channel (Channel.conversation 1),
         ServerEvent.newMessage ⟨0, 1, 1, "hello", true, false, 0⟩⟩,
        ⟨Target.channel (Channel.user 1), ServerEvent.conversationActivity 1 0⟩,
        ⟨Target.channel (Channel.user 2), ServerEvent.conversationActivity 1 0⟩]) :=
  (send_message_persist_and_fanout stAB sockA 1 1 "hello"
    ⟨1, 1, TrustState.accepted⟩ rfl rfl rfl (Or.inl rfl)).1

/-- A second live connection bound to the same user 1 as `sockA`. -/
def sockA2 : Conn := { socketId := 2, userId := some 1, joined := [Channel.user 1] }

/-- **C8** — `authenticate` adds the identity to the online set
idempotently, broadcasts `user_online` to everyone and returns the full
current online set to the registering connection; a disconnect of any
connection bound to an identity removes that identity from the online set
and broadcasts `user_offline`, even while another live connection (`other`)
for the same identity remains registered — no reference counting. -/
theorem presence_register_unregister (online : List Nat) (sockets : List Conn)
    (sock other : Conn) (uid : Nat)
    (hmem : other ∈ sockets) (hne : other.socketId ≠ sock.socketId)
    (hsock : sock.userId = some uid) :
    handleAuthenticate online sock uid =
      (setInsert online uid,
       { sock with userId := some uid, joined := Channel.user uid :: sock.joined },
       [⟨Target.broadcast, ServerEvent.userOnline uid⟩,
        ⟨Target.connection sock.socketId, ServerEvent.onlineUsers (setInsert online uid)⟩]) ∧
    uid ∈ setInsert online uid ∧
    (uid ∈ online → setInsert online uid = online) ∧
    uid ∉ (handleDisconnect (setInsert online uid) sockets sock).1 ∧
    other ∈ (handleDisconnect (setInsert online uid) sockets sock).2.1 ∧
    (handleDisconnect (setInsert online uid) sockets sock).2.2 =
      [⟨Target.broadcast, ServerEvent.userOffline uid⟩] := by
  refine ⟨rfl, ?_, ?_, ?_, ?_, ?_⟩
  · by_cases h : uid ∈ online <;> simp [setInsert, h]
  · intro h
    simp [setInsert, h]
  · simp [handleDisconnect, hsock, List.mem_filter]
  · simp only [handleDisconnect, hsock]
    exact List.mem_filter.2 ⟨hmem, by simp [hne]⟩
  · simp [handleDisconnect, hsock]

/-- **C8 witness** — user 1 registers over `sockA` while online = [5]; a
later disconnect of `sockA` takes user 1 offline even though `sockA2` (same
user) is still connected. -/
theorem presence_register_unregister_witness :
    (1 ∉ (handleDisconnect (setInsert [5] 1) [sockA, sockA2] sockA).1) ∧
    sockA2 ∈ (handleDisconnect (setInsert [5] 1) [sockA, sockA2] sockA).2.1 :=
  ⟨(presence_register_unregister [5] [sockA, sockA2] sockA sockA2 1
      (by simp) (by decide) rfl).2.2.2.1,
   (presence_register_unregister [5] [sockA, sockA2] sockA sockA2 1
      (by simp) (by decide) rfl).2.2.2.2.1⟩

/-- A browser environment in which every acquisition succeeds. -/
def envPlain : MediaEnv :=
  { videoError := none, audioError := none, isMobile := false,
    hasGetDisplayMedia := false, displayGranted := false, displayHasVideo := false }

/-- A session that already holds an open peer connection (id 0) and a live
local audio track (id 5). -/
def staleSession : HookState :=
  { pc := some ⟨0, false, false, [], []⟩,
    localStream := some [⟨5, TrackKind.audio⟩], remoteStream := none,
    callState := CallState.calling 7 ⟨true, false⟩,
    incomingOffer := none, peerId := some 7, media := some ⟨true, false⟩,
    scheduledIdle := false, nextPcId := 1, nextTrackId := 10 }

/-- **C5 counterexample** — starting a new call from a session that still
holds peer connection 0 creates peer connection 1 but never closes peer
connection 0: `createPeer` simply overwrites the reference, refuting
"unconditionally tears down the previous session's resources (closes the
old peer connection) before the new peer connection is created". -/
theorem startCall_never_closes_previous_pc :
    ClientAction.closePc 0 ∉ (startCall envPlain staleSession 2 ⟨true, false⟩).2 ∧
    ClientAction.createPc 1 ∈ (startCall envPlain staleSession 2 ⟨true, false⟩).2 := by
  decide

/-- **C5 (amended)** — the controller holds exactly one peer-connection
reference, but a new `startCall`/`acceptCall` does *not* tear the previous
session down: it creates the new peer connection first (the trace starts
with `createPc`), never closes any previous peer connection (no `closePc`
ever occurs), and only the previously held local tracks are stopped — by
the media-acquisition step, after the new peer connection already exists. -/
theorem new_session_overwrites_without_teardown (env : MediaEnv) (s : HookState)
    (peer : Nat) (media : CallMedia) (pcOld : PeerConn)
    (_hold : s.pc = some pcOld) :
    (∀ i, ClientAction.closePc i ∉ (startCall env s peer media).2) ∧
    ((startCall env s peer media).2).head? =
      some (ClientAction.createPc s.nextPcId) ∧
    (∀ t ∈ s.localStream.getD [],
      ClientAction.stopTrack t.id ∈ (startCall env s peer media).2) ∧
    (∀ i, ClientAction.closePc i ∉ (acceptCall env s peer media).2) ∧
    ((acceptCall env s peer media).2).head? =
      some (ClientAction.createPc s.nextPcId) := by
  refine ⟨?_, ?_, ?_, ?_, ?_⟩
  · intro i
    cases hm : getMediaWithFallback env s.nextTrackId media <;>
      simp [startCall, createPeer, hm]
  · cases hm : getMediaWithFallback env s.nextTrackId media <;>
      simp [startCall, createPeer, hm]
  · intro t ht
    cases hm : getMediaWithFallback env s.nextTrackId media <;>
      simp [startCall, createPeer, hm] <;>
      exact ⟨t, ht, rfl⟩
  · intro i
    cases hm : getMediaWithFallback env s.nextTrackId media <;>
      simp [acceptCall, createPeer, hm]
  · cases hm : getMediaWithFallback env s.nextTrackId media <;>
      simp [acceptCall, createPeer, hm]

/-- **C5 witness** — starting a call over `staleSession`: no close of any
peer connection appears in the trace, the new peer connection is created
first, and the stale local track 5 is stopped afterwards. -/
theorem new_session_overwrites_without_teardown_witness :
    (∀ i, ClientAction.closePc i ∉ (startCall envPlain staleSession 2 ⟨true, false⟩).2) ∧
    ((startCall envPlain staleSession 2 ⟨true, false⟩).2).head? =
      some (ClientAction.createPc 1) :=
  ⟨(new_session_overwrites_without_teardown envPlain staleSession 2 ⟨true, false⟩
      ⟨0, false, false, [], []⟩ rfl).1,
   (new_session_overwrites_without_teardown envPlain staleSession 2 ⟨true, false⟩
      ⟨0, false, false, [], []⟩ rfl).2.1⟩

/-- The idle initial hook state. -/
def idleHook : HookState :=
  { pc := none, localStream := none, remoteStream := none,
    callState := CallState.idle, incomingOffer := none, peerId := none,
    media := none, scheduledIdle := false, nextPcId := 0, nextTrackId := 0 }

/-- A desktop environment whose camera is busy (`NotReadableError`) but
where a display-capture stream is granted with a video track. -/
def envDisplayFallback : MediaEnv :=
  { videoError := some ErrName.notReadableError, audioError := none,
    isMobile := false, hasGetDisplayMedia := true, displayGranted := true,
    displayHasVideo := true }

/-- **C6 counterexample** — `startCall(2, {audio:true, video:true})` on a
desktop whose camera fails with `NotReadableError` but whose display
capture is granted ends in state Calling with media `{audio:true,
video:true}` (composed microphone audio plus display video), not
`{audio:true, video:false}` — and signals that composed media — refuting
"retries audio-only and ends in state Calling with media {audio:true,
video:false}". -/
theorem startCall_display_fallback_not_audio_only :
    (startCall envDisplayFallback idleHook 2 ⟨true, true⟩).1.callState =
      CallState.calling 2 ⟨true, true⟩ ∧
    ClientAction.emitCallUser 2 ⟨true, true⟩ ∈
      (startCall envDisplayFallback idleHook 2 ⟨true, true⟩).2 := by
  decide

/-- **C6 (amended)** — when `startCall(peer, {audio:true, video:true})`
fails to acquire video with a retryable device error and audio acquisition
succeeds, the controller retries audio-only; if, on desktop, a
display-capture video track is additionally granted, it ends in Calling
with media `{audio:true, video:true}`, otherwise in Calling with
`{audio:true, video:false}` — and in either case the media signaled to the
peer equals the media actually acquired, never the originally requested
set as such. -/
theorem startCall_video_device_fallback (env : MediaEnv) (s : HookState)
    (peer : Nat) (e : ErrName)
    (hv : env.videoError = some e) (he : isVideoFallbackErr e = true)
    (ha : env.audioError = none) :
    (startCall env s peer ⟨true, true⟩).1.callState =
      CallState.calling peer
        (if !env.isMobile && env.hasGetDisplayMedia &&
            (env.displayGranted && env.displayHasVideo)
         then ⟨true, true⟩ else ⟨true, false⟩) ∧
    (startCall env s peer ⟨true, true⟩).2 =
      ClientAction.createPc s.nextPcId ::
        ((s.localStream.getD []).map (fun t => ClientAction.stopTrack t.id) ++
         [ClientAction.emitCallUser peer
            (if !env.isMobile && env.hasGetDisplayMedia &&
                (env.displayGranted && env.displayHasVideo)
             then ⟨true, true⟩ else ⟨true, false⟩)]) := by
  obtain ⟨ve, ae, im, hg, dg, dv⟩ := env
  dsimp only at hv ha ⊢
  subst hv
  subst ha
  cases im <;> cases hg <;> cases dg <;> cases dv <;>
    simp [startCall, createPeer, getMediaWithFallback, tryAcquire, he]

/-- **C6 witness** — on mobile (no display capture) with a busy camera, the
call ends in Calling with `{audio:true, video:false}` and signals exactly
that. -/
theorem startCall_video_device_fallback_witness :
    (startCall ⟨some ErrName.notReadableError, none, true, false, false, false⟩
        idleHook 2 ⟨true, true⟩).1.callState =
      CallState.calling 2 ⟨true, false⟩ ∧
    (startCall ⟨some ErrName.notReadableError, none, true, false, false, false⟩
        idleHook 2 ⟨true, true⟩).2 =
      [ClientAction.createPc 0, ClientAction.emitCallUser 2 ⟨true, false⟩] :=
  startCall_video_device_fallback
    ⟨some ErrName.notReadableError, none, true, false, false, false⟩
    idleHook 2 ErrName.notReadableError rfl rfl rfl
